import Mathlib

/- Formal model of the logistics-tracker repository: the ingest service
(src/server.py) and the map viewer (src/map_viewer.py).

The server holds a global list `recent_locations`; here every handler takes
the store as an explicit argument and returns the updated store.  Wall-clock
reads (datetime.now().isoformat()) are passed in as a string argument.
Python dicts coming from request.get_json() are modelled as insertion-ordered
association lists of JSON values. -/

/-- A JSON value, as produced by Flask request.get_json or the json module.
Numbers are modelled as rationals. -/
inductive JVal where
  | null
  | bool (b : Bool)
  | num (q : ℚ)
  | str (s : String)
  | arr (items : List JVal)
  | obj (fields : List (String × JVal))

/-- A JSON object: ordered key-value pairs (Python dicts preserve insertion
order). -/
abbrev Obj := List (String × JVal)

/-- Python `key in d` on a dict. -/
def hasKey (o : Obj) (k : String) : Bool :=
  o.any (fun p => p.1 == k)

/-- Python `d.get(key)` on a dict (None when absent). -/
def getKey (o : Obj) (k : String) : Option JVal :=
  (o.find? (fun p => p.1 == k)).map (·.2)

/-- Python `d[key] = v` on a dict: overwrite in place when the key is present
(keeping its position), append otherwise. -/
def setKey : Obj → String → JVal → Obj
  | [], k, v => [(k, v)]
  | (k', v') :: rest, k, v =>
      if k' == k then (k, v) :: rest else (k', v') :: setKey rest k v

/-- Whether Python float formatting, format(v, '.6f'), succeeds on a JSON
value: numbers do, and so do booleans (bool is an int subclass); None raises
TypeError, and strings, arrays and objects raise. -/
def formatsAsFloat : JVal → Bool
  | .num _ => true
  | .bool _ => true
  | .null => false
  | .str _ => false
  | .arr _ => false
  | .obj _ => false

/-- Whether the logging f-string of receive_location succeeds: it formats
location_data['latitude'] and location_data['longitude'] with :.6f, so it
raises unless both values are float-formattable.  (Both keys are present when
this runs, so the null defaults are unreachable.) -/
def formats_ok (o : Obj) : Bool :=
  formatsAsFloat ((getKey o "latitude").getD .null) &&
  formatsAsFloat ((getKey o "longitude").getD .null)

namespace Server

/-- `max_locations = 1000`: maximum number of locations kept in memory. -/
def max_locations : Nat := 1000

/-- `cleanup_old_locations`: when the store exceeds `max_locations`, keep only
the slice `recent_locations[-max_locations:]`, i.e. the most recent
`max_locations` entries (and save, a file effect not modelled here). -/
def cleanup_old_locations (recent_locations : List Obj) : List Obj :=
  if recent_locations.length > max_locations then
    recent_locations.drop (recent_locations.length - max_locations)
  else recent_locations

/-- Response of POST /location: either HTTP 200 with the new total count, or
an HTTP error status with its error message. -/
inductive SubmitResponse where
  | ok (total_locations : Nat)
  | err (status : Nat) (error : String)
  deriving DecidableEq

/-- `required_fields = ['latitude', 'longitude', 'timestamp']`. -/
def required_fields : List String := ["latitude", "longitude", "timestamp"]

/-- The validation loop of `receive_location`: the first required field that is
not a key of the submitted object, if any. -/
def firstMissing (location_data : Obj) : Option String :=
  required_fields.find? (fun f => !hasKey location_data f)

/-- `receive_location`: POST /location.  `now` is datetime.now().isoformat().
An absent or empty JSON body (both falsy in `if not location_data`) is
modelled as the empty object.  After stamping, appending and cleanup, the
handler logs the fix with an f-string that float-formats the latitude and
longitude; when either value is not float-formattable the f-string raises
inside the try block and the blanket except answers HTTP 500 'Internal server
error' — with the fix already stored, since the append precedes the print.
Returns the HTTP response and the new store. -/
def receive_location (location_data : Obj) (now : String) (st : List Obj) :
    SubmitResponse × List Obj :=
  if location_data.isEmpty then
    (.err 400 "No location data provided", st)
  else
    match firstMissing location_data with
    | some f => (.err 400 ("Missing required field: " ++ f), st)
    | none =>
        let stamped := setKey location_data "server_timestamp" (.str now)
        let st1 := st ++ [stamped]
        let st2 := cleanup_old_locations st1
        if formats_ok location_data then
          (.ok st2.length, st2)
        else
          (.err 500 "Internal server error", st2)

/-- Body of GET /locations. -/
structure LocationsResponse where
  locations : List Obj
  total_count : Nat

/-- `get_locations`: GET /locations returns the full store and its count. -/
def get_locations (st : List Obj) : LocationsResponse :=
  { locations := st, total_count := st.length }

/-- Response of GET /locations/latest: HTTP 200 with the last stored fix, or
HTTP 404 when the store is empty. -/
inductive LatestResponse where
  | found (location : Obj)
  | no_data

/-- `get_latest_location`: GET /locations/latest returns
`recent_locations[-1]` when the store is truthy, else a 404 no-data reply. -/
def get_latest_location (st : List Obj) : LatestResponse :=
  match st.getLast? with
  | some loc => .found loc
  | none => .no_data

/-- The JSON document `save_locations` writes: json.dump of the list of
location dicts. -/
def encodeLocations (recent_locations : List Obj) : JVal :=
  .arr (recent_locations.map .obj)

/-- State of the locations.json file as the viewer can observe it. -/
inductive FileState where
  | absent
  | unreadable
  | stores (doc : JVal)

/-- `save_locations`: writes the store to locations.json as a JSON array of
objects.  (An IOError is caught and only logged; the failure case leaves the
file untouched and is outside this model, which covers the successful write.) -/
def save_locations (recent_locations : List Obj) : FileState :=
  .stores (encodeLocations recent_locations)

end Server

namespace LocationMapViewer

/-- Outcome of `requests.get(server_url + "/locations", timeout=5)`: either a
response whose JSON body is an object (the server always answers with one), or
a requests.exceptions.RequestException. -/
inductive HttpFetchResult where
  | response (status_code : Nat) (body : Obj)
  | requestError

/-- `get_locations_from_server`: on a 200 response return
`data.get('locations', [])` from the JSON body; on any other status or on a
request exception return None. -/
def get_locations_from_server (r : HttpFetchResult) : Option JVal :=
  match r with
  | .response status_code data =>
      if status_code = 200 then some ((getKey data "locations").getD (.arr []))
      else none
  | .requestError => none

/-- `get_locations_from_file`: json.load of the local file; None when the file
is missing or unreadable (JSONDecodeError / IOError are caught). -/
def get_locations_from_file (f : Server.FileState) : Option JVal :=
  match f with
  | .stores doc => some doc
  | .absent => none
  | .unreadable => none

/-- `get_locations`: try the server first, fall back to the local file exactly
when the server fetch returned None. -/
def get_locations (r : HttpFetchResult) (f : Server.FileState) : Option JVal :=
  match get_locations_from_server r with
  | some locations => some locations
  | none => get_locations_from_file f

/-- Interpret a JSON document as the list of location records it stores: the
persisted file holds a JSON array of objects.  Used to state that a reloaded
document is field-for-field the stored sequence. -/
def decodeLocations (doc : JVal) : Option (List Obj) :=
  match doc with
  | .arr items =>
      items.mapM (fun v => match v with | .obj fields => some fields | _ => none)
  | _ => none

/-- One location record as `create_map` reads it: numeric latitude and
longitude, the client timestamp (read with `loc.get('timestamp', 'Unknown')`,
modelled as the resulting string), and the optional accuracy. -/
structure Fix where
  latitude : ℚ
  longitude : ℚ
  timestamp : String
  accuracy : Option ℚ

/-- Popup content attached to map elements.  The Python code builds f-strings;
here each popup is a constructor carrying the interpolated values (number
formatting, datetime parsing and the wall-clock generation time are effects of
the formatting libraries and are not modelled). -/
inductive Popup where
  | noData
  | start (time : String) (accuracy : Option ℚ)
  | current (time : String) (accuracy : Option ℚ) (lat lon : ℚ)
  | point (index : Nat) (time : String) (accuracy : Option ℚ)
  | summary (total : Nat) (latestTime : String) (lat lon : ℚ)
  | path (points : Nat)

/-- A folium.Marker added to the map. -/
structure Marker where
  position : ℚ × ℚ
  popup : Popup
  color : String
  icon : String

/-- The folium.PolyLine drawn through all points. -/
structure PolyLine where
  coords : List (ℚ × ℚ)
  color : String
  weight : Nat
  opacity : ℚ
  popup : Popup

/-- The folium.Map produced by `create_map`: its centre, zoom, the optional
path line, and every marker in the order it was added. -/
structure FoliumMap where
  location : ℚ × ℚ
  zoom_start : Nat
  path : Option PolyLine
  markers : List Marker

/-- The loop body of `create_map`: the marker for location `i` out of `n`.
The first location gets the green start marker; otherwise the last gets the
red current marker; every other one a blue numbered point marker. -/
def marker_for (n : Nat) (i : Nat) (loc : Fix) : Marker :=
  if i = 0 then
    { position := (loc.latitude, loc.longitude),
      popup := .start loc.timestamp loc.accuracy,
      color := "green", icon := "play" }
  else if i = n - 1 then
    { position := (loc.latitude, loc.longitude),
      popup := .current loc.timestamp loc.accuracy loc.latitude loc.longitude,
      color := "red", icon := "stop" }
  else
    { position := (loc.latitude, loc.longitude),
      popup := .point (i + 1) loc.timestamp loc.accuracy,
      color := "blue", icon := "record" }

/-- `create_map`: an empty sequence gives the default Chennai map with a
single no-data marker; otherwise the map is centred on the mean coordinate,
carries a polyline when there is more than one location, one marker per
location, and a final summary marker offset from the centre. -/
def create_map (locations : List Fix) : FoliumMap :=
  match locations with
  | [] =>
      { location := ((13.0827 : ℚ), (80.2707 : ℚ)), zoom_start := 10,
        path := none,
        markers := [{ position := ((13.0827 : ℚ), (80.2707 : ℚ)),
                      popup := .noData, color := "red", icon := "info-sign" }] }
  | fix0 :: rest =>
      let locs := fix0 :: rest
      let lats := locs.map (·.latitude)
      let lons := locs.map (·.longitude)
      let center_lat := lats.sum / (lats.length : ℚ)
      let center_lon := lons.sum / (lons.length : ℚ)
      let path :=
        if locs.length > 1 then
          some ({ coords := locs.map (fun loc => (loc.latitude, loc.longitude)),
                  color := "blue", weight := 3, opacity := (8 : ℚ) / 10,
                  popup := .path locs.length } : PolyLine)
        else none
      let fixMarkers := locs.enum.map (fun p => marker_for locs.length p.1 p.2)
      let latest := locs.getLast (List.cons_ne_nil fix0 rest)
      let summaryMarker : Marker :=
        { position := (center_lat + 1 / 1000, center_lon + 1 / 1000),
          popup := .summary locs.length latest.timestamp
                     latest.latitude latest.longitude,
          color := "darkgreen", icon := "info-sign" }
      { location := (center_lat, center_lon), zoom_start := 13,
        path := path, markers := fixMarkers ++ [summaryMarker] }

/-- Mutable state of the live-tracking loop: the change-detection counter
`self.last_location_count` (initialised to 0 and never updated by the initial
render) and the locations last rendered into the output document. -/
structure ViewerState where
  last_location_count : Nat
  document : Option (List Obj)

/-- One iteration of the `live_tracking` loop after the sleep: fetch, and
regenerate the map only when the fetch was truthy (not None, not empty) and
its length differs from `last_location_count`.  Returns whether the document
was regenerated, and the new state.  `fetched` is the result of this tick's
`get_locations`, viewed as the typed List[Dict] the code treats it as. -/
def live_tick (st : ViewerState) (fetched : Option (List Obj)) :
    Bool × ViewerState :=
  match fetched with
  | some locations =>
      if !locations.isEmpty && locations.length != st.last_location_count then
        (true, { last_location_count := locations.length,
                 document := some locations })
      else
        (false, st)
  | none => (false, st)

end LocationMapViewer

/-- All three required fields are present (the success condition of the
validation loop). -/
def has_required (o : Obj) : Bool :=
  hasKey o "latitude" && hasKey o "longitude" && hasKey o "timestamp"

/-- Submission of every element of `inputs` in order: each element carries the
posted object and the server receipt time of that request. -/
def submit_all (inputs : List (Obj × String)) (st : List Obj) : List Obj :=
  inputs.foldl (fun s p => (Server.receive_location p.1 p.2 s).2) st

/-- The stored form of a batch of submissions: each object with its
server_timestamp stamped. -/
def stampAll (inputs : List (Obj × String)) : List Obj :=
  inputs.map (fun p => setKey p.1 "server_timestamp" (.str p.2))

theorem isEmpty_eq_false_of_hasKey {o : Obj} {k : String}
    (h : hasKey o k = true) : o.isEmpty = false := by
  cases o with
  | nil => simp [hasKey] at h
  | cons p rest => rfl

theorem firstMissing_eq_none {o : Obj}
    (h1 : hasKey o "latitude" = true) (h2 : hasKey o "longitude" = true)
    (h3 : hasKey o "timestamp" = true) : Server.firstMissing o = none := by
  simp [Server.firstMissing, Server.required_fields, List.find?, h1, h2, h3]

theorem cleanup_eq_rtake (l : List Obj) :
    Server.cleanup_old_locations l = l.rtake Server.max_locations := by
  unfold Server.cleanup_old_locations List.rtake
  split
  · rfl
  · next h =>
      have hz : l.length - Server.max_locations = 0 := by omega
      rw [hz, List.drop_zero]

theorem length_rtake (l : List α) (n : Nat) :
    (l.rtake n).length = min n l.length := by
  rw [List.rtake, List.length_drop]
  omega

theorem rtake_of_length_le {l : List α} {n : Nat} (h : l.length ≤ n) :
    l.rtake n = l := by
  rw [List.rtake]
  have hz : l.length - n = 0 := by omega
  rw [hz, List.drop_zero]

theorem take_append_take (X Y : List α) (n : Nat) :
    (X ++ Y.take n).take n = (X ++ Y).take n := by
  have hmin : min (n - X.length) n = n - X.length :=
    Nat.min_eq_left (Nat.sub_le _ _)
  rw [List.take_append_eq_append_take, List.take_append_eq_append_take,
    List.take_take, hmin]

theorem rtake_append_rtake (A B : List α) (n : Nat) :
    (A.rtake n ++ B).rtake n = (A ++ B).rtake n := by
  rw [List.rtake_eq_reverse_take_reverse (A.rtake n ++ B),
    List.rtake_eq_reverse_take_reverse (A ++ B),
    List.rtake_eq_reverse_take_reverse A]
  rw [List.reverse_append, List.reverse_append, List.reverse_reverse,
    take_append_take]

theorem receive_location_valid {o : Obj} (now : String) (st : List Obj)
    (h : has_required o = true) :
    Server.receive_location o now st =
      ((if formats_ok o then
          .ok ((st ++ [setKey o "server_timestamp" (.str now)]).rtake
                Server.max_locations).length
        else .err 500 "Internal server error"),
       (st ++ [setKey o "server_timestamp" (.str now)]).rtake
         Server.max_locations) := by
  have h1 : hasKey o "latitude" = true := by
    simp [has_required, Bool.and_eq_true] at h
    exact h.1.1
  have h2 : hasKey o "longitude" = true := by
    simp [has_required, Bool.and_eq_true] at h
    exact h.1.2
  have h3 : hasKey o "timestamp" = true := by
    simp [has_required, Bool.and_eq_true] at h
    exact h.2
  rw [Server.receive_location]
  rw [isEmpty_eq_false_of_hasKey h1, firstMissing_eq_none h1 h2 h3]
  by_cases hf : formats_ok o = true
  · simp [cleanup_eq_rtake, hf]
  · have hf' : formats_ok o = false := by
      cases hfc : formats_ok o with
      | true => exact absurd hfc hf
      | false => rfl
    simp [cleanup_eq_rtake, hf']

theorem receive_location_success {o : Obj} (now : String) (st : List Obj)
    (h : has_required o = true) (hf : formats_ok o = true) :
    Server.receive_location o now st =
      (.ok ((st ++ [setKey o "server_timestamp" (.str now)]).rtake
              Server.max_locations).length,
       (st ++ [setKey o "server_timestamp" (.str now)]).rtake
         Server.max_locations) := by
  rw [receive_location_valid now st h, hf]
  simp

theorem receive_location_state {o : Obj} (now : String) (st : List Obj)
    (h : has_required o = true) :
    (Server.receive_location o now st).2 =
      (st ++ [setKey o "server_timestamp" (.str now)]).rtake
        Server.max_locations := by
  rw [receive_location_valid now st h]

theorem submit_all_eq_rtake (inputs : List (Obj × String)) (st : List Obj)
    (hval : ∀ p ∈ inputs, has_required p.1 = true)
    (hlen : st.length ≤ Server.max_locations) :
    submit_all inputs st = (st ++ stampAll inputs).rtake Server.max_locations := by
  induction inputs generalizing st with
  | nil =>
      simp only [submit_all, List.foldl_nil, stampAll, List.map_nil,
        List.append_nil]
      exact (rtake_of_length_le hlen).symm
  | cons p rest ih =>
      have hp : has_required p.1 = true := hval p (by simp)
      have hrest : ∀ q ∈ rest, has_required q.1 = true :=
        fun q hq => hval q (by simp [hq])
      have hstep : (Server.receive_location p.1 p.2 st).2 =
          (st ++ [setKey p.1 "server_timestamp" (.str p.2)]).rtake
            Server.max_locations := receive_location_state p.2 st hp
      have hlen1 : ((st ++ [setKey p.1 "server_timestamp" (.str p.2)]).rtake
          Server.max_locations).length ≤ Server.max_locations := by
        rw [length_rtake]
        omega
      calc submit_all (p :: rest) st
          = submit_all rest ((Server.receive_location p.1 p.2 st).2) := by
            simp only [submit_all, List.foldl_cons]
        _ = submit_all rest ((st ++ [setKey p.1 "server_timestamp"
              (.str p.2)]).rtake Server.max_locations) := by rw [hstep]
        _ = (((st ++ [setKey p.1 "server_timestamp" (.str p.2)]).rtake
              Server.max_locations) ++ stampAll rest).rtake
              Server.max_locations := ih _ hrest hlen1
        _ = ((st ++ [setKey p.1 "server_timestamp" (.str p.2)]) ++
              stampAll rest).rtake Server.max_locations :=
            rtake_append_rtake _ _ _
        _ = (st ++ stampAll (p :: rest)).rtake Server.max_locations := by
            simp [stampAll, List.append_assoc]

/-- A sample valid fix object with numeric coordinates. -/
def sampleFix : Obj :=
  [("latitude", .num 13), ("longitude", .num 80), ("timestamp", .str "t1")]

/-- An object whose three required keys are present but carry null and
non-numeric values. -/
def oddFix : Obj :=
  [("latitude", .null), ("longitude", .str "not a number"), ("timestamp", .null)]

/-- C1 (amended): provided the stored count is strictly below the cap
`max_locations` and the latitude and longitude values of the submitted object
are float-formattable (numbers, so the post-store logging line does not
raise), submitting an object containing the keys latitude, longitude and
timestamp succeeds, the stored count afterwards is the count before plus
exactly 1, the submitted fix with server_timestamp added is the last element
returned by GET /locations, and the count returned by the submission equals
the new stored count. -/
theorem submit_below_cap_appends_and_counts
    (o : Obj) (now : String) (st : List Obj)
    (hreq : has_required o = true)
    (hfmt : formats_ok o = true)
    (hcap : st.length < Server.max_locations) :
    (Server.receive_location o now st).1 =
        .ok (Server.receive_location o now st).2.length
    ∧ (Server.receive_location o now st).2.length = st.length + 1
    ∧ (Server.get_locations
        (Server.receive_location o now st).2).locations.getLast? =
        some (setKey o "server_timestamp" (.str now)) := by
  rw [receive_location_success now st hreq hfmt]
  have hlen : (st ++ [setKey o "server_timestamp" (.str now)]).length ≤
      Server.max_locations := by
    simp only [List.length_append, List.length_cons, List.length_nil]
    omega
  rw [rtake_of_length_le hlen]
  refine ⟨rfl, by simp, ?_⟩
  simp [Server.get_locations]

/-- Witness for the amended C1 at a concrete input: one valid fix submitted
into the empty store. -/
theorem submit_below_cap_appends_and_counts_witness :
    (Server.receive_location sampleFix "s1" []).1 =
        .ok (Server.receive_location sampleFix "s1" []).2.length
    ∧ (Server.receive_location sampleFix "s1" []).2.length =
        (([] : List Obj)).length + 1
    ∧ (Server.get_locations
        (Server.receive_location sampleFix "s1" []).2).locations.getLast? =
        some (setKey sampleFix "server_timestamp" (.str "s1")) :=
  submit_below_cap_appends_and_counts sampleFix "s1" [] (by rfl) (by rfl)
    (by decide)

/-- C1 counterexample: the original claim fails in two ways.  At a store
already holding max_locations = 1000 elements, a valid submission leaves the
stored count at 1000, not 1001, so the count does not grow by exactly 1 for
every store state.  And below the cap, a fix whose three required keys are
present but whose latitude is null is stored, yet the response is HTTP 500
'Internal server error' rather than a success, because the post-append
logging float-format raises. -/
theorem submit_at_cap_count_not_incremented :
    ((Server.receive_location sampleFix "s1"
        (List.replicate 1000 sampleFix)).2.length = 1000
      ∧ (List.replicate 1000 sampleFix).length + 1 = 1001)
    ∧ Server.receive_location oddFix "s1" [] =
        (.err 500 "Internal server error",
         [setKey oddFix "server_timestamp" (.str "s1")]) := by
  have hmax : Server.max_locations = 1000 := rfl
  refine ⟨⟨?_, ?_⟩, ?_⟩
  · rw [receive_location_state "s1" _ (by rfl), length_rtake,
      List.length_append, List.length_replicate, hmax,
      List.length_cons, List.length_nil]
    omega
  · rw [List.length_replicate]
  · rfl

theorem isEmpty_eq_false_of_ne_nil {l : List α} (h : l ≠ []) :
    l.isEmpty = false := by
  cases l with
  | nil => exact absurd rfl h
  | cons p rest => rfl

theorem receive_location_missing {o : Obj} {f : String} (now : String)
    (st : List Obj) (hne : o.isEmpty = false)
    (hfm : Server.firstMissing o = some f) :
    Server.receive_location o now st =
      (.err 400 ("Missing required field: " ++ f), st) := by
  rw [Server.receive_location, hne, hfm]
  simp

/-- C2: starting from the empty store, after a sequence of successful (valid)
submissions longer than the cap, GET /locations returns exactly max_locations
elements: the most recently submitted max_locations fixes in submission
order, with their server timestamps stamped and the oldest dropped first. -/
theorem capped_store_keeps_most_recent
    (inputs : List (Obj × String))
    (hval : ∀ p ∈ inputs, has_required p.1 = true)
    (hlen : inputs.length > Server.max_locations) :
    (Server.get_locations (submit_all inputs [])).locations =
        (stampAll inputs).drop (inputs.length - Server.max_locations)
    ∧ (Server.get_locations (submit_all inputs [])).locations.length =
        Server.max_locations := by
  have h := submit_all_eq_rtake inputs [] hval (by simp)
  rw [List.nil_append] at h
  constructor
  · rw [Server.get_locations] at *
    rw [h, List.rtake]
    simp [stampAll]
  · rw [Server.get_locations] at *
    rw [h, length_rtake]
    simp only [stampAll, List.length_map]
    omega

/-- Witness for C2 at a concrete input: 1001 identical valid submissions into
the empty store. -/
theorem capped_store_keeps_most_recent_witness :
    (Server.get_locations
        (submit_all (List.replicate 1001 (sampleFix, "s1")) [])).locations =
        (stampAll (List.replicate 1001 (sampleFix, "s1"))).drop
          ((List.replicate 1001 (sampleFix, "s1")).length - Server.max_locations)
    ∧ (Server.get_locations
        (submit_all (List.replicate 1001 (sampleFix, "s1")) [])).locations.length =
        Server.max_locations :=
  capped_store_keeps_most_recent (List.replicate 1001 (sampleFix, "s1"))
    (by
      intro p hp
      rw [List.eq_of_mem_replicate hp]
      rfl)
    (by rw [List.length_replicate]; decide)

/-- C3 counterexample: the empty object is missing all three required keys,
yet POST /location answers it with the generic 400 message 'No location data
provided', which is not the missing-field message for any of the three
required fields; so not every object missing a required key is rejected with
an error naming the missing field. -/
theorem empty_object_error_names_no_field :
    Server.receive_location [] "s1" [] =
        (.err 400 "No location data provided", [])
    ∧ "No location data provided" ≠ "Missing required field: " ++ "latitude"
    ∧ "No location data provided" ≠ "Missing required field: " ++ "longitude"
    ∧ "No location data provided" ≠ "Missing required field: " ++ "timestamp" := by
  refine ⟨rfl, ?_, ?_, ?_⟩ <;> decide

/-- C3 (amended): a non-empty submitted object that is missing at least one of
the keys latitude, longitude, timestamp is rejected with HTTP 400 naming the
first missing field in that order and the store is unchanged; an empty (falsy)
body is also rejected with HTTP 400, but with the generic message 'No location
data provided', again leaving the store unchanged. -/
theorem missing_field_rejected_store_unchanged
    (o : Obj) (now : String) (st : List Obj)
    (hne : o ≠ [])
    (hmiss : has_required o = false) :
    (∃ f, f ∈ Server.required_fields ∧ hasKey o f = false ∧
        Server.firstMissing o = some f ∧
        Server.receive_location o now st =
          (.err 400 ("Missing required field: " ++ f), st))
    ∧ Server.receive_location [] now st =
        (.err 400 "No location data provided", st) := by
  have hie : o.isEmpty = false := isEmpty_eq_false_of_ne_nil hne
  refine ⟨?_, rfl⟩
  by_cases hlat : hasKey o "latitude"
  · by_cases hlon : hasKey o "longitude"
    · by_cases hts : hasKey o "timestamp"
      · exact absurd hmiss (by simp [has_required, hlat, hlon, hts])
      · have hts' : hasKey o "timestamp" = false := by
          cases h : hasKey o "timestamp" with
          | true => exact absurd h hts
          | false => rfl
        have hfm : Server.firstMissing o = some "timestamp" := by
          rw [Server.firstMissing, Server.required_fields]
          simp [List.find?, hlat, hlon, hts']
        exact ⟨"timestamp", by rw [Server.required_fields]; simp, hts',
          hfm, receive_location_missing now st hie hfm⟩
    · have hlon' : hasKey o "longitude" = false := by
        cases h : hasKey o "longitude" with
        | true => exact absurd h hlon
        | false => rfl
      have hfm : Server.firstMissing o = some "longitude" := by
        rw [Server.firstMissing, Server.required_fields]
        simp [List.find?, hlat, hlon']
      exact ⟨"longitude", by rw [Server.required_fields]; simp, hlon',
        hfm, receive_location_missing now st hie hfm⟩
  · have hlat' : hasKey o "latitude" = false := by
      cases h : hasKey o "latitude" with
      | true => exact absurd h hlat
      | false => rfl
    have hfm : Server.firstMissing o = some "latitude" := by
      rw [Server.firstMissing, Server.required_fields]
      simp [List.find?, hlat']
    exact ⟨"latitude", by rw [Server.required_fields]; simp, hlat',
      hfm, receive_location_missing now st hie hfm⟩

/-- Witness for the amended C3 at a concrete input: an object with only a
longitude, submitted against the empty store. -/
theorem missing_field_rejected_store_unchanged_witness :
    Server.receive_location [] "s1" [] =
      (.err 400 "No location data provided", []) :=
  (missing_field_rejected_store_unchanged [(("longitude", JVal.num 80))] "s1"
    [] (by simp) (by rfl)).2

theorem getLast?_rtake_concat (l : List α) (x : α) (n : Nat) (hn : 0 < n) :
    ((l ++ [x]).rtake n).getLast? = some x := by
  obtain ⟨m, rfl⟩ : ∃ m, n = m + 1 := ⟨n - 1, by omega⟩
  rw [List.rtake_eq_reverse_take_reverse, List.reverse_append]
  simp only [List.reverse_cons, List.reverse_nil, List.nil_append,
    List.singleton_append, List.take_succ_cons, List.reverse_cons]
  exact List.getLast?_concat _

/-- C4: GET /locations/latest answers no_data (HTTP 404) exactly when the
store is empty; on a non-empty store it returns the last element of the
stored sequence; and after exactly one successful submission into the empty
store it returns that submitted fix (with its server_timestamp added). -/
theorem latest_found_iff_nonempty (st : List Obj) (o : Obj) (now : String)
    (hreq : has_required o = true) :
    (Server.get_latest_location st = .no_data ↔ st = [])
    ∧ (∀ x, st.getLast? = some x →
        Server.get_latest_location st = .found x)
    ∧ Server.get_latest_location (Server.receive_location o now []).2 =
        .found (setKey o "server_timestamp" (.str now)) := by
  refine ⟨?_, ?_, ?_⟩
  · rw [Server.get_latest_location]
    cases h : st.getLast? with
    | none =>
        simp only [List.getLast?_eq_none_iff] at h
        simp [h]
    | some x =>
        have hne : st ≠ [] := by
          intro hnil
          rw [hnil] at h
          exact absurd h (by simp)
        simp [hne]
  · intro x hx
    rw [Server.get_latest_location, hx]
  · have h := getLast?_rtake_concat ([] : List Obj)
      (setKey o "server_timestamp" (.str now)) Server.max_locations (by decide)
    rw [List.nil_append] at h
    rw [Server.get_latest_location, receive_location_state now [] hreq,
      List.nil_append, h]

/-- Witness for C4 at a concrete input: after one submission of a valid fix
into the empty store, latest returns that stamped fix. -/
theorem latest_found_iff_nonempty_witness :
    Server.get_latest_location (Server.receive_location sampleFix "s1" []).2 =
      .found (setKey sampleFix "server_timestamp" (.str "s1")) :=
  (latest_found_iff_nonempty [sampleFix] sampleFix "s1" (by rfl)).2.2

/-- C9: the code fails its claimed presence-only acceptance exactly on the
claim's advertised inputs.  At oddFix the three required keys are all
present, yet the response is HTTP 500 'Internal server error' while the
stamped fix is nevertheless stored as the only element: validation itself is
presence-only and the fix is appended, but the post-append logging f-string
float-formats the null latitude and the string longitude, raises, and the
blanket except turns the already-stored submission into a 500 instead of the
success response.  (The empty object body is still rejected with HTTP 400
'No location data provided', per the amended C3.) -/
theorem presence_only_fix_stored_but_500 :
    (hasKey oddFix "latitude" = true ∧ hasKey oddFix "longitude" = true ∧
      hasKey oddFix "timestamp" = true)
    ∧ Server.receive_location oddFix "s1" [] =
        (.err 500 "Internal server error",
         [setKey oddFix "server_timestamp" (.str "s1")]) := by
  refine ⟨⟨rfl, rfl, rfl⟩, ?_⟩
  rfl

/-- C5 counterexample: with the last render showing five fixes
(last_location_count 5, document rendered from five fixes), a tick whose
fetch returns the empty list (count 0, which differs from 5) does not
re-render: the truthiness test in the loop skips empty fetch results, so
re-rendering is not equivalent to the fetched count differing from the count
at the last render. -/
theorem live_tick_empty_fetch_no_rerender :
    (LocationMapViewer.live_tick
        { last_location_count := 5,
          document := some (List.replicate 5 sampleFix) } (some [])).1 = false
    ∧ (List.replicate 5 sampleFix).length ≠ ([] : List Obj).length := by
  constructor
  · rfl
  · rw [List.length_replicate]
    decide

/-- C5 (amended): a tick of the live loop re-renders exactly when the fetch
returned a non-empty list whose length differs from the change-detection
counter last_location_count (a counter that starts at 0, is not updated by
the initial render, and is updated only when a tick re-renders); when the
tick does not re-render, the state and in particular the output document are
unchanged, and when it does, the counter and the document take the fetched
value. -/
theorem live_tick_rerender_iff (st : LocationMapViewer.ViewerState)
    (fetched : Option (List Obj)) :
    ((LocationMapViewer.live_tick st fetched).1 = true ↔
      ∃ locations, fetched = some locations ∧ locations ≠ [] ∧
        locations.length ≠ st.last_location_count)
    ∧ ((LocationMapViewer.live_tick st fetched).1 = false →
        (LocationMapViewer.live_tick st fetched).2 = st)
    ∧ (∀ locations, fetched = some locations → locations ≠ [] →
        locations.length ≠ st.last_location_count →
        (LocationMapViewer.live_tick st fetched).2 =
          { last_location_count := locations.length,
            document := some locations }) := by
  cases fetched with
  | none =>
      refine ⟨?_, fun _ => rfl, ?_⟩
      · simp [LocationMapViewer.live_tick]
      · intro locations h
        exact absurd h (by simp)
  | some locations =>
      have hdef : LocationMapViewer.live_tick st (some locations) =
          if !locations.isEmpty &&
              locations.length != st.last_location_count then
            (true, { last_location_count := locations.length,
                     document := some locations })
          else (false, st) := rfl
      by_cases hcond : locations.isEmpty = false ∧
          locations.length ≠ st.last_location_count
      · have hb : (!locations.isEmpty &&
            locations.length != st.last_location_count) = true := by
          rw [hcond.1]
          simp [bne_iff_ne, hcond.2]
        have hmain : LocationMapViewer.live_tick st (some locations) =
            (true, { last_location_count := locations.length,
                     document := some locations }) := by
          rw [hdef, hb]
          simp
        have hne : locations ≠ [] := by
          intro hnil
          rw [hnil] at hcond
          exact absurd hcond.1 (by simp)
        refine ⟨?_, ?_, ?_⟩
        · rw [hmain]
          simp only [true_iff]
          exact ⟨locations, rfl, hne, hcond.2⟩
        · rw [hmain]
          intro h
          exact absurd h (by simp)
        · intro locs hlocs _ _
          cases hlocs
          rw [hmain]
      · have hb : (!locations.isEmpty &&
            locations.length != st.last_location_count) = false := by
          rcases Bool.eq_false_or_eq_true locations.isEmpty with he | he
          · rw [he]
            simp
          · have hlen : locations.length = st.last_location_count := by
              by_contra hne
              exact hcond ⟨he, hne⟩
            rw [hlen]
            simp
        have hmain : LocationMapViewer.live_tick st (some locations) =
            (false, st) := by
          rw [hdef, hb]
          simp
        refine ⟨?_, fun _ => by rw [hmain], ?_⟩
        · rw [hmain]
          constructor
          · intro h
            exact absurd h (by simp)
          · rintro ⟨locs, hlocs, hne, hlen⟩
            cases hlocs
            exact absurd ⟨isEmpty_eq_false_of_ne_nil hne, hlen⟩ hcond
        · intro locs hlocs hne hlen
          cases hlocs
          exact absurd ⟨isEmpty_eq_false_of_ne_nil hne, hlen⟩ hcond

/-- Witness for the amended C5 at a concrete input: a failed fetch leaves the
state unchanged. -/
theorem live_tick_rerender_iff_witness :
    (LocationMapViewer.live_tick
        { last_location_count := 3, document := none } none).2 =
      { last_location_count := 3, document := none } :=
  (live_tick_rerender_iff { last_location_count := 3, document := none }
    none).2.1 rfl

/-- C6: the server helper returns None exactly on a request exception or a
non-200 status; on a 200 response the combined fetch returns the locations
field of the response body (with the empty array as default); whenever the
server helper returns None the combined fetch returns the file read; and the
combined fetch returns None exactly when the server helper and the file read
both return None. -/
theorem fetch_fallback_and_nodata (r : LocationMapViewer.HttpFetchResult)
    (f : Server.FileState) :
    (LocationMapViewer.get_locations_from_server r = none ↔
      r = .requestError ∨
        ∃ s body, r = .response s body ∧ s ≠ 200)
    ∧ (∀ body, r = .response 200 body →
        LocationMapViewer.get_locations r f =
          some ((getKey body "locations").getD (.arr [])))
    ∧ (LocationMapViewer.get_locations_from_server r = none →
        LocationMapViewer.get_locations r f =
          LocationMapViewer.get_locations_from_file f)
    ∧ (LocationMapViewer.get_locations r f = none ↔
        LocationMapViewer.get_locations_from_server r = none ∧
        LocationMapViewer.get_locations_from_file f = none) := by
  cases r with
  | requestError =>
      refine ⟨by simp [LocationMapViewer.get_locations_from_server], ?_, ?_, ?_⟩
      · intro body h
        exact absurd h (by simp)
      · intro _
        rfl
      · rw [LocationMapViewer.get_locations,
          LocationMapViewer.get_locations_from_server]
        simp
  | response s body =>
      by_cases hs : s = 200
      · cases hs
        have hserver : LocationMapViewer.get_locations_from_server
            (.response 200 body) =
            some ((getKey body "locations").getD (.arr [])) := by
          rw [LocationMapViewer.get_locations_from_server]
          simp
        refine ⟨?_, ?_, ?_, ?_⟩
        · rw [hserver]
          simp
        · intro body' h
          cases h
          rw [LocationMapViewer.get_locations, hserver]
        · intro h
          rw [hserver] at h
          exact absurd h (by simp)
        · rw [LocationMapViewer.get_locations, hserver]
          simp
      · have hserver : LocationMapViewer.get_locations_from_server
            (.response s body) = none := by
          rw [LocationMapViewer.get_locations_from_server]
          simp [hs]
        refine ⟨?_, ?_, ?_, ?_⟩
        · exact ⟨fun _ => Or.inr ⟨s, body, rfl, hs⟩, fun _ => hserver⟩
        · intro body' h
          have : s = 200 := by
            cases h
            rfl
          exact absurd this hs
        · intro _
          rw [LocationMapViewer.get_locations, hserver]
        · rw [LocationMapViewer.get_locations, hserver]
          simp

/-- Witness for C6 at a concrete input: request exception and missing file
give the no-data outcome. -/
theorem fetch_fallback_and_nodata_witness :
    LocationMapViewer.get_locations .requestError .absent = none := by
  refine (fetch_fallback_and_nodata .requestError .absent).2.2.2.mpr ⟨?_, ?_⟩
  · rfl
  · rfl

/-- C7: reloading through the viewer file fallback immediately after the
service saved the store yields exactly the saved JSON document, and that
document decodes back to the stored sequence of fixes field-for-field: reload
after save is the identity on fix sequences. -/
theorem save_then_file_reload_round_trip (l : List Obj) :
    LocationMapViewer.get_locations_from_file (Server.save_locations l) =
        some (Server.encodeLocations l)
    ∧ LocationMapViewer.decodeLocations (Server.encodeLocations l) = some l := by
  constructor
  · rfl
  · rw [Server.encodeLocations, LocationMapViewer.decodeLocations]
    induction l with
    | nil => rfl
    | cons o rest ih =>
        rw [List.map_cons, List.mapM_cons]
        simp only at ih ⊢
        rw [ih]
        rfl

theorem marker_for_position (n i : Nat) (loc : LocationMapViewer.Fix) :
    (LocationMapViewer.marker_for n i loc).position =
      (loc.latitude, loc.longitude) := by
  rw [LocationMapViewer.marker_for]
  split
  · rfl
  · split
    · rfl
    · rfl

theorem create_map_location_cons (fix0 : LocationMapViewer.Fix)
    (rest : List LocationMapViewer.Fix) :
    (LocationMapViewer.create_map (fix0 :: rest)).location =
      (((fix0 :: rest).map (·.latitude)).sum /
          ((((fix0 :: rest).map (·.latitude)).length : ℚ)),
       ((fix0 :: rest).map (·.longitude)).sum /
          ((((fix0 :: rest).map (·.longitude)).length : ℚ))) := rfl

theorem create_map_path_cons (fix0 : LocationMapViewer.Fix)
    (rest : List LocationMapViewer.Fix) :
    (LocationMapViewer.create_map (fix0 :: rest)).path =
      (if (fix0 :: rest).length > 1 then
        some ({ coords := (fix0 :: rest).map
                  (fun loc => (loc.latitude, loc.longitude)),
                color := "blue", weight := 3, opacity := (8 : ℚ) / 10,
                popup := .path (fix0 :: rest).length } :
              LocationMapViewer.PolyLine)
      else none) := rfl

theorem create_map_markers_shape (fix0 : LocationMapViewer.Fix)
    (rest : List LocationMapViewer.Fix) :
    ∃ sm : LocationMapViewer.Marker,
      (LocationMapViewer.create_map (fix0 :: rest)).markers =
        ((fix0 :: rest).enum.map fun p =>
          LocationMapViewer.marker_for (fix0 :: rest).length p.1 p.2) ++ [sm] :=
  ⟨_, rfl⟩

/-- C8: create_map centres the map at the componentwise arithmetic mean of
the coordinates, or at the fixed default location (13.0827, 80.2707) when the
sequence is empty; it carries the connecting polyline exactly when the
sequence has more than one fix; and it places one marker per fix: for every
index i, the i-th marker added to the map sits at fix i's coordinates. -/
theorem create_map_center_path_markers
    (locations : List LocationMapViewer.Fix) :
    (locations = [] →
      (LocationMapViewer.create_map locations).location =
        ((13.0827 : ℚ), (80.2707 : ℚ)))
    ∧ (locations ≠ [] →
      (LocationMapViewer.create_map locations).location =
        ((locations.map (·.latitude)).sum / ((locations.length : ℚ)),
         (locations.map (·.longitude)).sum / ((locations.length : ℚ))))
    ∧ ((LocationMapViewer.create_map locations).path.isSome ↔
        1 < locations.length)
    ∧ (∀ (i : Nat) (loc : LocationMapViewer.Fix), locations[i]? = some loc →
        ((LocationMapViewer.create_map locations).markers[i]?).map
            (fun mk : LocationMapViewer.Marker => mk.position) =
          some (loc.latitude, loc.longitude)) := by
  cases locations with
  | nil =>
      have hpath : (LocationMapViewer.create_map
          ([] : List LocationMapViewer.Fix)).path = none := rfl
      refine ⟨fun _ => rfl, fun h => absurd rfl h, ?_, ?_⟩
      · rw [hpath]
        simp
      · intro i loc h
        exact absurd h (by simp)
  | cons fix0 rest =>
      refine ⟨fun h => absurd h (List.cons_ne_nil _ _), ?_, ?_, ?_⟩
      · intro _
        rw [create_map_location_cons]
        simp [List.length_map]
      · rw [create_map_path_cons]
        by_cases h : (fix0 :: rest).length > 1
        · rw [if_pos h]
          simp only [Option.isSome_some, true_iff]
          exact h
        · rw [if_neg h]
          simp only [Option.isSome_none, Bool.false_eq_true, false_iff]
          exact h
      · intro i loc h
        have hi : i < (fix0 :: rest).length := (List.getElem?_eq_some.mp h).1
        obtain ⟨sm, hm⟩ := create_map_markers_shape fix0 rest
        rw [hm, List.getElem?_append_left
          (by rw [List.length_map, List.enum_length]; exact hi)]
        rw [List.getElem?_map, List.getElem?_enum, h]
        simp [marker_for_position]

/-- Two sample viewer fixes. -/
def sampleFix1 : LocationMapViewer.Fix :=
  { latitude := 13, longitude := 80, timestamp := "t1", accuracy := none }

def sampleFix2 : LocationMapViewer.Fix :=
  { latitude := 14, longitude := 81, timestamp := "t2", accuracy := some 5 }

/-- Witness for C8 at a concrete input: a two-fix sequence is centred at the
mean coordinate. -/
theorem create_map_center_path_markers_witness :
    (LocationMapViewer.create_map [sampleFix1, sampleFix2]).location =
      (([sampleFix1, sampleFix2].map (·.latitude)).sum /
          ((([sampleFix1, sampleFix2] : List LocationMapViewer.Fix).length : ℚ)),
       ([sampleFix1, sampleFix2].map (·.longitude)).sum /
          ((([sampleFix1, sampleFix2] : List LocationMapViewer.Fix).length : ℚ))) :=
  (create_map_center_path_markers [sampleFix1, sampleFix2]).2.1 (by simp)

/-- C10: on a one-fix sequence, the per-fix marker is the green play START
marker (the first-element branch of the loop wins over the last-element
branch), and no marker of the produced map is the red stop CURRENT marker. -/
theorem single_fix_start_marker_precedence (loc : LocationMapViewer.Fix) :
    (LocationMapViewer.create_map [loc]).markers.head? =
        some { position := (loc.latitude, loc.longitude),
               popup := .start loc.timestamp loc.accuracy,
               color := "green", icon := "play" }
    ∧ ((LocationMapViewer.create_map [loc]).markers.all
        (fun mk => !(mk.color == "red" && mk.icon == "stop"))) = true := by
  constructor
  · rfl
  · rfl
